import Mathlib

/-!
Verification of the generate → validate → retry pipeline of the
neurips-google-code-golf-championship-2025 repository.

The development shallowly embeds the decision logic of the pipeline:

* `pipeline/modules/code_validator.py` — `CodeValidator.passes_training_examples`
  and `CodeValidator.validate_code_length`;
* `pipeline/modules/output_parser.py` — `OutputParser.extract_code`;
* `pipeline/modules/prompt_builder.py` — `PromptBuilder.build_prompt` and the two
  prompt templates;
* `run_pipeline.py` — the per-task attempt loop (`for attempt in
  range(max_retries + 1)`) and the task iteration with its skip and budget checks.

External effects are abstracted at the exact call boundaries of the source:
a candidate module that passed the syntax and entry-point checks is a function
`Grid → Except String Grid` (an exception raised by the generated code is
`Except.error`), `ast.parse`-validity and module loading are oracle parameters of
the loop, and the generation service is a function from the attempt index to
`Except String String` (`.error` models a raised exception such as a transport
failure).  Serialization of the example payload (`json.dumps`) is opaque: the
prompt builder receives the two pre-serialized strings.
-/

/-- A grid: list of rows of integers (the task JSON's value domain). -/
abbrev Grid := List (List Int)

/-- One training example from a task's `"train"` list. -/
structure TrainExample where
  input : Grid
  output : Grid
deriving DecidableEq, Repr

/-- Row comparison of `np.array_equal` on integer rows: lengths must agree and
entries must agree pointwise. -/
def rowEq (r s : List Int) : Bool :=
  (r.length == s.length) && ((List.zip r s).all fun p => p.1 == p.2)

/-- Shape-sensitive elementwise grid equality, the comparison performed by
`np.array_equal(result_np, expected_np)` in `passes_training_examples`
(code_validator.py lines 90-93) for rectangular integer grids: the number of
rows must agree, and rows must agree pairwise under `rowEq`. -/
def gridEq (a b : Grid) : Bool :=
  (a.length == b.length) && ((List.zip a b).all fun p => rowEq p.1 p.2)

/-- One round of the example loop of `passes_training_examples`
(code_validator.py lines 81-100): run the program on the example's input inside
`try`; an exception (`Except.error`) is caught and the example does not count;
otherwise the example counts exactly when the result equals the expected output
under `gridEq`. -/
def scoreExample (program : Grid → Except String Grid) (ex : TrainExample) : Bool :=
  match program ex.input with
  | Except.error _ => false
  | Except.ok result => gridEq result ex.output

/-- `CodeValidator.passes_training_examples` (code_validator.py lines 77-110),
after the module has been loaded and the entry-point checks (`hasattr(module,
'p')`, `callable(program)`) have succeeded; `program` is the loaded entry point.
`num_correct` accumulates over the per-example loop, `passed = (num_correct ==
total)`, and the returned message is the plain tally.  (The local
`success_rate` of line 105 is never used and is omitted.) -/
def passes_training_examples (program : Grid → Except String Grid)
    (train : List TrainExample) : Bool × String :=
  let total := train.length
  let num_correct := train.countP fun ex => scoreExample program ex
  let passed := num_correct == total
  let message := "Passed " ++ toString num_correct ++ "/" ++ toString total
    ++ " train examples"
  (passed, message)

/-- `CodeValidator.validate_code_length` (code_validator.py lines 116-128):
`len(code) <= max_length`, with default `max_length = 10000`. -/
def validate_code_length (code : String) (max_length : Nat := 10000) : Bool :=
  code.length ≤ max_length

/-- Concrete entry point used by witnesses: row reversal, the program of the
spec's example scenario (spec §8). -/
def wRowRev : Grid → Except String Grid :=
  fun g => Except.ok (g.map List.reverse)

/-- Concrete entry point used by witnesses: raises exactly on input `[[9]]`. -/
def wRaiser : Grid → Except String Grid :=
  fun g => if g = [[9]] then Except.error "boom" else Except.ok g

/-- Python's whitespace class (`\s` of `re`, `str.strip()`) over the ASCII
range the source deals in. -/
def pyIsSpace (c : Char) : Bool :=
  c == ' ' || c == '\t' || c == '\n' || c == '\r' || c == '\x0B' || c == '\x0C'

/-- Drop trailing characters satisfying `pyIsSpace`. -/
def dropTrailing (l : List Char) : List Char :=
  (l.reverse.dropWhile pyIsSpace).reverse

/-- Python `str.strip()`: drop leading and trailing whitespace. -/
def pyStrip (l : List Char) : List Char :=
  dropTrailing (l.dropWhile pyIsSpace)

/-- Split at the first occurrence of `pat`: `splitFirst pat l = some (b, a)`
with `l = b ++ pat ++ a` and no occurrence of `pat` starting inside `b`;
`none` when `pat` does not occur in `l`. -/
def splitFirst (pat : List Char) : List Char → Option (List Char × List Char)
  | [] => if pat.isPrefixOf ([] : List Char) then some ([], []) else none
  | c :: tl =>
    if pat.isPrefixOf (c :: tl) then some ([], (c :: tl).drop pat.length)
    else (splitFirst pat tl).map fun p => (c :: p.1, p.2)

/-- Python's `in` operator on strings (substring containment). -/
def containsSub (l pat : List Char) : Bool :=
  (splitFirst pat l).isSome

/-- First match content of `re.findall(r'```python(.*?)```', raw, re.DOTALL)`
(output_parser.py line 25).  The leftmost non-greedy match of the pattern is
the text between the first occurrence of `` ```python `` and the next
occurrence of `` ``` `` after it.  If that first opener has no closer, no later
opener can have one either (a later `` ```python `` itself starts with
`` ``` `` and would have provided the closer), so the whole pattern has no
match. -/
def pythonBlockFirst (raw : List Char) : Option (List Char) :=
  match splitFirst ("```python".data) raw with
  | none => none
  | some (_, rest) =>
    match splitFirst ("```".data) rest with
    | some (content, _) => some content
    | none => none

/-- First match content of `re.findall(r'```(.*?)```', raw, re.DOTALL)`
(output_parser.py line 30): the text between the first `` ``` `` and the next
`` ``` `` after it, by the same leftmost-shortest-match argument as for
`pythonBlockFirst`. -/
def genericBlockFirst (raw : List Char) : Option (List Char) :=
  match splitFirst ("```".data) raw with
  | none => none
  | some (_, rest) =>
    match splitFirst ("```".data) rest with
    | some (content, _) => some content
    | none => none

/-- Scanner for `re.sub(r'^python\s*', '', code, flags=re.MULTILINE)`
(output_parser.py line 34).  `re.sub` walks the string left to right; with
`re.MULTILINE` the anchor `^` holds at the string start and right after each
`'\n'`, which the flag `atStart` tracks.  At an anchored position where
`python` follows, the prefix `python` and the greedy whitespace run `\s*`
after it are deleted, and scanning resumes past the run (a line start again
exactly when the last deleted whitespace character was `'\n'`).  Everywhere
else one character is emitted.  `fuel` bounds the recursion; every step
consumes at least one character, so `fuel = l.length` (as passed by
`stripPyTags`) never runs out. -/
def stripPyTagAux : Nat → Bool → List Char → List Char
  | 0, _, l => l
  | _ + 1, _, [] => []
  | fuel + 1, atStart, c :: tl =>
    if atStart && (("python".data).isPrefixOf (c :: tl)) then
      let rest := (c :: tl).drop 6
      let ws := rest.takeWhile pyIsSpace
      stripPyTagAux fuel (ws.getLast? == some '\n') (rest.dropWhile pyIsSpace)
    else
      c :: stripPyTagAux fuel (c == '\n') tl

/-- The multiline substitution applied to a generic block's content. -/
def stripPyTags (l : List Char) : List Char :=
  stripPyTagAux l.length true l

/-- `noPyTag atStart l = true` when no line of `l` (given the line-start state
`atStart` of its first character) begins with `python`. -/
def noPyTag : Bool → List Char → Bool
  | _, [] => true
  | atStart, c :: tl =>
    (!(atStart && (("python".data).isPrefixOf (c :: tl)))) && noPyTag (c == '\n') tl

/-- `OutputParser.extract_code` (output_parser.py lines 13-44) on character
lists: prefer the first ```` ```python ```` block's content (stripped), else the
first generic ```` ``` ```` block's content (stripped, then the multiline
`^python\s*` substitution), else the raw text stripped; then the no-op
`def p(g)` conditional strip of lines 40-42 and the final `.strip()` of
line 44. -/
def extractCodeL (raw : List Char) : List Char :=
  let code :=
    match pythonBlockFirst raw with
    | some content => pyStrip content
    | none =>
      match genericBlockFirst raw with
      | some content => stripPyTags (pyStrip content)
      | none => pyStrip raw
  let code :=
    if !(containsSub code ("def p(g)".data)) && !(containsSub code ("def p(g:)".data)) then
      pyStrip code
    else
      code
  pyStrip code

/-- `OutputParser.extract_code` on strings. -/
def extract_code (raw : String) : String :=
  String.mk (extractCodeL raw.data)

/-- `INITIAL_PROMPT_TEMPLATE.format(train_examples=..., test_examples=...)`
(prompt_builder.py lines 10-44): the fixed initial-attempt template with the
two serialized example payloads spliced in.  (`\x27` is the apostrophe.) -/
def initialPromptText (train_examples test_examples : String) : String :=
  "You are an expert at solving abstract reasoning challenges (ARC tasks) using pattern recognition.\n\nCRITICAL: First analyze the examples carefully before coding:\n\n1. **Dimension Analysis**: \n   - What are input dimensions? What are output dimensions?\n   - Is output = input × N? Is it a tiling/replication pattern?\n   - Example: 3×3 input → 9×9 output means 3× scaling\n\n2. **Pattern Discovery**:\n   - Compare ALL training examples - what\x27s consistent across them?\n   - Look at zeros vs non-zeros - different behaviors?\n   - Is the input used as: (a) data to copy, (b) a mask/template, (c) coordinates?\n\n3. **Tiling Patterns**:\n   - If output is M×N times larger, each input cell might control an M×N block\n   - CRITICAL: Does each block contain: (a) the input cell value REPEATED, or (b) the ENTIRE INPUT GRID COPIED?\n   - Check: Do zero cells behave differently than non-zero cells?\n   - Example: If input cell[i][j]=0 → block might be all zeros. If input cell[i][j]!=0 → block might be THE FULL INPUT replicated!\n\nTRAIN EXAMPLES:\n"
  ++ train_examples
  ++ "\n\nTEST EXAMPLES (for validation):\n"
  ++ test_examples
  ++ "\n\nNow write a Python function `def p(g):` that implements the discovered pattern.\n\nRequirements:\n- Input `g`: list of lists of integers (0-9)\n- Return: transformed grid (same format)\n- Use ONLY Python standard library (no imports unless critical: collections, itertools, copy)\n- Must work for ALL examples\n\nWrite ONLY Python code - no markdown, no explanations."

/-- `REFINEMENT_PROMPT_TEMPLATE.format(previous_code=..., error_message=...,
train_examples=..., test_examples=...)` (prompt_builder.py lines 47-83). -/
def refinementPromptText (previous_code error_message train_examples test_examples : String) :
    String :=
  "You are an expert at solving abstract reasoning challenges (ARC tasks). Your previous solution FAILED validation.\n\nPREVIOUS ATTEMPT (FAILED):\n```python\n"
  ++ previous_code
  ++ "\n```\n\nVALIDATION ERROR:\n"
  ++ error_message
  ++ "\n\nTRAIN EXAMPLES (Your solution must pass ALL of these):\n"
  ++ train_examples
  ++ "\n\nTEST EXAMPLES (for pattern understanding):\n"
  ++ test_examples
  ++ "\n\nANALYSIS OF FAILURE:\nYour previous code didn\x27t match the expected outputs. Carefully analyze:\n1. What pattern did you miss? Compare your output vs expected output\n2. Are you handling ALL cases correctly (zeros, non-zeros, edge cases)?\n3. Is the transformation applied correctly to EVERY training example?\n4. Did you misunderstand the grid transformation rule?\n\nTHINK STEP-BY-STEP:\n- Re-examine the input→output transformation in each example\n- Identify what\x27s different between your approach and the actual pattern\n- Consider: tiling, replication, masking, conditional logic, spatial relationships\n\nNow write a CORRECTED Python function `def p(g):` that fixes the errors.\n\nRequirements:\n- Must pass ALL training examples\n- Input `g`: list of lists of integers (0-9)\n- Return: transformed grid (same format)\n- Use ONLY Python standard library\n\nWrite ONLY Python code - no markdown, no explanations."

/-- Python truthiness of an optional string argument defaulting to `None`:
`None` and the empty string are falsy. -/
def pyTruthy (o : Option String) : Bool :=
  match o with
  | none => false
  | some s => !(s == "")

/-- `PromptBuilder.build_prompt` (prompt_builder.py lines 89-129) with the
`json.dumps` serialization of the examples abstracted into the two
pre-formatted strings (the unused `task_id` argument is omitted): the
refinement template is used exactly under Python's
`if previous_code and error_message:`, i.e. when both optional arguments are
present and non-empty; otherwise the initial template. -/
def build_prompt (train_formatted test_formatted : String)
    (previous_code : Option String := none)
    (error_message : Option String := none) : String :=
  if pyTruthy previous_code && pyTruthy error_message then
    refinementPromptText (previous_code.getD "") (error_message.getD "")
      train_formatted test_formatted
  else
    initialPromptText train_formatted test_formatted

/-- Verdict of one iteration of the attempt loop of `run_pipeline`
(run_pipeline.py lines 116-212), as observable from its control flow and the
stored feedback. -/
inductive AttemptVerdict where
  | exceptionDuring (msg : String)
  | syntaxError (code : String)
  | failedValidation (code : String) (message : String)
  | accepted (code : String) (message : String)
deriving DecidableEq, Repr

/-- One attempt's record: the prompt sent to the generator and the verdict. -/
structure AttemptRec where
  prompt : String
  verdict : AttemptVerdict
deriving DecidableEq, Repr

/-- The collaborators of one task's attempt loop, abstracted at their call
boundaries: `isSyntaxValid` is `CodeValidator.is_syntax_valid` (`ast.parse`),
`validate` is `CodeValidator.passes_training_examples` on the task's data,
`gen` maps an attempt index to the generator's raw text or a raised exception
(`LLMCodeGenerator.generate` either returns text or raises), and the two
formatted strings are the serialized example payloads passed to
`build_prompt`. -/
structure LoopEnv where
  isSyntaxValid : String → Bool
  validate : String → Bool × String
  gen : Nat → Except String String
  train_formatted : String
  test_formatted : String

/-- The body of `for attempt in range(max_retries + 1)` (run_pipeline.py lines
116-212): build the prompt (initial on attempt 0, otherwise from the stored
`previous_code` / `previous_error`), call the generator, extract, check
syntax, validate.  The result pairs the attempt's record with `none` when the
loop breaks with success (verdict accepted) and with
`some (previous_code, previous_error)` — the feedback stored for the next
attempt — otherwise.  An exception (only the generator raises in the model)
keeps `previous_code` and stores `"Exception: " ++ msg`; a syntax failure
stores the code and the fixed syntax message; a validation failure stores the
code and the validator's message. -/
def iterAttempt (env : LoopEnv) (attempt : Nat)
    (previous_code previous_error : Option String) :
    AttemptRec × Option (Option String × Option String) :=
  let prompt :=
    if attempt == 0 then
      build_prompt env.train_formatted env.test_formatted
    else
      build_prompt env.train_formatted env.test_formatted previous_code previous_error
  match env.gen attempt with
  | Except.error e =>
    (⟨prompt, AttemptVerdict.exceptionDuring e⟩,
      some (previous_code, some ("Exception: " ++ e)))
  | Except.ok raw_output =>
    let code := extract_code raw_output
    if !(env.isSyntaxValid code) then
      (⟨prompt, AttemptVerdict.syntaxError code⟩,
        some (some code, some "Syntax error: Code has invalid Python syntax"))
    else
      match env.validate code with
      | (true, message) => (⟨prompt, AttemptVerdict.accepted code message⟩, none)
      | (false, message) =>
        (⟨prompt, AttemptVerdict.failedValidation code message⟩,
          some (some code, some message))

/-- The attempt loop of `run_pipeline` for one task, producing the list of
attempt records in order.  `remaining = max_retries - attempt` counts the
retries still allowed: after a non-accepted attempt the loop continues exactly
when `retry_on_failure and attempt < max_retries` (i.e. `remaining > 0`),
threading the stored feedback; an accepted attempt breaks immediately.  Each
record corresponds to exactly one call of `llm_generator.generate`.  The loop
for a whole task is `runAttempts env retry max_retries 0 none none`
(`previous_code = previous_error = None` initially). -/
def runAttempts (env : LoopEnv) (retry_on_failure : Bool) :
    Nat → Nat → Option String → Option String → List AttemptRec
  | 0, attempt, pc, pe => [(iterAttempt env attempt pc pe).1]
  | remaining + 1, attempt, pc, pe =>
    match iterAttempt env attempt pc pe with
    | (a, none) => [a]
    | (a, some (pc', pe')) =>
      if retry_on_failure then
        a :: runAttempts env retry_on_failure remaining (attempt + 1) pc' pe'
      else
        [a]

/-- `True` on the records of attempts that were accepted. -/
def isAcceptedRec (a : AttemptRec) : Bool :=
  match a.verdict with
  | AttemptVerdict.accepted _ _ => true
  | _ => false

/-- Successful generation calls in a trace: `LLMCodeGenerator.generate`
increments `api_calls` only when the underlying call returns (llm_generator.py
line 66), so an attempt whose generation raised does not count. -/
def apiCallsOf (trace : List AttemptRec) : Nat :=
  trace.countP fun a =>
    match a.verdict with
    | AttemptVerdict.exceptionDuring _ => false
    | _ => true

/-- One task of the runner: whether its solution artifact already exists
(`FileWriter.file_exists`, file_writer.py lines 43-55) and the task's loop
collaborators. -/
structure TaskSpec where
  already_solved : Bool
  env : LoopEnv

/-- The trace of processing one task (run_pipeline.py lines 94-98 and
116-212): an already-solved task is skipped before any generation call. -/
def taskTrace (t : TaskSpec) (retry_on_failure : Bool) (max_retries : Nat) :
    List AttemptRec :=
  if t.already_solved then [] else runAttempts t.env retry_on_failure max_retries 0 none none

/-- The task iteration of `run_pipeline` (lines 86-98): before each task the
budget `llm_generator.api_calls >= max_api_calls` is checked (breaking the
whole run), then an already-solved task increments the `skipped` counter and
is passed over; otherwise the attempt loop runs and its successful generation
calls accrue to the counter.  Returns the final `(api_calls, skipped)`. -/
def runTasks (retry_on_failure : Bool) (max_retries max_api_calls : Nat) :
    List TaskSpec → Nat → Nat → Nat × Nat
  | [], api_calls, skipped => (api_calls, skipped)
  | t :: rest, api_calls, skipped =>
    if max_api_calls ≤ api_calls then
      (api_calls, skipped)
    else if t.already_solved then
      runTasks retry_on_failure max_retries max_api_calls rest api_calls (skipped + 1)
    else
      runTasks retry_on_failure max_retries max_api_calls rest
        (api_calls + apiCallsOf (runAttempts t.env retry_on_failure max_retries 0 none none))
        skipped

/-- The whole run over a task list (run_pipeline.py line 86 truncates the
task list to the first `max_api_calls` entries before iterating). -/
def run_pipeline_tasks (retry_on_failure : Bool) (max_retries max_api_calls : Nat)
    (tasks : List TaskSpec) : Nat × Nat :=
  runTasks retry_on_failure max_retries max_api_calls (tasks.take max_api_calls) 0 0

/-- Oracles used by witnesses: syntax always valid, validation always passes. -/
def wEnvPass : LoopEnv :=
  ⟨fun _ => true, fun _ => (true, "Passed 1/1 train examples"),
   fun _ => Except.ok "def p(g):\n    return g", "T", "E"⟩

/-- Oracles used by witnesses: syntax always valid, validation always fails. -/
def wEnvFail : LoopEnv :=
  ⟨fun _ => true, fun _ => (false, "Passed 0/1 train examples"),
   fun _ => Except.ok "x = 1", "T", "E"⟩

/-- Oracles for the C7 counterexample: the generator always answers with an
empty fenced block, so the extracted candidate is the empty string, which
parses (`ast.parse("")` succeeds) and fails validation with the
missing-entry-point message. -/
def wEnvEmptySrc : LoopEnv :=
  ⟨fun _ => true, fun _ => (false, "Function p() not found"),
   fun _ => Except.ok "``````", "T", "E"⟩

/-- A syntactically valid candidate source of 10001 characters (a single long
identifier), exceeding the default `max_length = 10000`. -/
def wLongSrc : String :=
  String.mk (List.replicate 10001 'x')

/-- Oracles for the C3 counterexample: the generator returns the over-long
source, which parses and passes validation. -/
def wEnvLong : LoopEnv :=
  ⟨fun _ => true, fun _ => (true, "Passed 1/1 train examples"),
   fun _ => Except.ok wLongSrc, "T", "E"⟩

/-- Oracles used by witnesses: the syntax check always fails. -/
def wEnvBadSyn : LoopEnv :=
  ⟨fun _ => false, fun _ => (false, "m"), fun _ => Except.ok "x = 1", "T", "E"⟩

-- ------------------------------------------------------------------
-- Theorems
-- ------------------------------------------------------------------

/-- Pairwise-zip equality tests decide list equality, given a sound element
test. -/
theorem zipAll_eq_iff {α : Type} (f : α → α → Bool)
    (hf : ∀ x y, f x y = true ↔ x = y) :
    ∀ l₁ l₂ : List α,
      (((l₁.length == l₂.length) && ((List.zip l₁ l₂).all fun p => f p.1 p.2)) = true)
        ↔ l₁ = l₂ := by
  intro l₁
  induction l₁ with
  | nil =>
    intro l₂
    cases l₂ <;> simp
  | cons x xs ih =>
    intro l₂
    cases l₂ with
    | nil => simp
    | cons y ys =>
      have h := ih ys
      constructor
      · intro hand
        simp only [List.length_cons, List.zip_cons_cons, List.all_cons,
          Bool.and_eq_true, beq_iff_eq] at hand
        obtain ⟨hlen, hxy, hall⟩ := hand
        have hx : x = y := (hf x y).mp hxy
        have hxs : xs = ys := h.mp (by
          simp only [Bool.and_eq_true, beq_iff_eq]
          exact ⟨by omega, hall⟩)
        simp [hx, hxs]
      · intro heq
        injection heq with h1 h2
        subst h1
        subst h2
        have hb := h.mpr rfl
        simp only [Bool.and_eq_true, beq_iff_eq] at hb
        simp [List.zip_cons_cons, List.all_cons, (hf x x).mpr rfl, hb.2]

/-- `rowEq` decides row equality. -/
theorem rowEq_iff (r s : List Int) : rowEq r s = true ↔ r = s :=
  zipAll_eq_iff (fun x y => x == y) (by intro x y; simp) r s

/-- `gridEq` decides grid equality: the numpy comparison is shape-sensitive
elementwise equality, which on rectangular integer grids coincides with
structural equality. -/
theorem gridEq_iff (a b : Grid) : gridEq a b = true ↔ a = b :=
  zipAll_eq_iff rowEq rowEq_iff a b

/-- C1: given a candidate that passed the syntax and entry-point checks, the
validator reports `passed = true` exactly when every training example's
invocation returns (without raising) a grid equal to the expected output under
shape-sensitive elementwise equality; and whenever the pass tally is strictly
below the total the verdict is not accepted. -/
theorem validator_accepts_iff_all_pass (program : Grid → Except String Grid)
    (train : List TrainExample) :
    (((passes_training_examples program train).1 = true) ↔
      ∀ ex ∈ train, ∃ g, program ex.input = Except.ok g ∧ gridEq g ex.output = true)
    ∧ ((train.countP fun ex => scoreExample program ex) < train.length →
        (passes_training_examples program train).1 = false) := by
  constructor
  · simp only [passes_training_examples, beq_iff_eq]
    rw [List.countP_eq_length]
    constructor
    · intro h ex hex
      have hsc := h ex hex
      unfold scoreExample at hsc
      cases hcall : program ex.input with
      | error m => rw [hcall] at hsc; exact absurd hsc (by simp)
      | ok g => rw [hcall] at hsc; exact ⟨g, rfl, hsc⟩
    · intro h ex hex
      obtain ⟨g, hg, he⟩ := h ex hex
      unfold scoreExample
      rw [hg]
      exact he
  · intro hlt
    have hne : (train.countP fun ex => scoreExample program ex) ≠ train.length :=
      Nat.ne_of_lt hlt
    simp only [passes_training_examples]
    simp [hne]

/-- C1 witness: the spec's example scenario — one training pair, a row-reversal
program, verdict accepted. -/
theorem validator_accepts_iff_all_pass_witness :
    (passes_training_examples wRowRev [⟨[[0, 1], [1, 0]], [[1, 0], [0, 1]]⟩]).1 = true :=
  (validator_accepts_iff_all_pass wRowRev [⟨[[0, 1], [1, 0]], [[1, 0], [0, 1]]⟩]).1.mpr
    (by
      intro ex hex
      simp only [List.mem_singleton] at hex
      subst hex
      exact ⟨[[1, 0], [0, 1]], rfl, by decide⟩)

/-- C10: with an empty training list the tally is 0 of 0, `passed = (0 == 0) =
true`, and the message is the 0/0 tally — any loaded candidate is accepted. -/
theorem empty_train_accepted (program : Grid → Except String Grid) :
    passes_training_examples program [] = (true, "Passed 0/0 train examples") := by
  simp only [passes_training_examples, List.countP_nil, List.length_nil]
  rfl

/-- C8: an example whose invocation raises contributes `false` to the tally
(exactly as a mere mismatch would), and the tally over `pre ++ [ex] ++ post`
is the sum of the tallies of `pre` and `post` — every subsequent example is
still scored. -/
theorem fault_isolation (program : Grid → Except String Grid)
    (pre post : List TrainExample) (ex : TrainExample) (msg : String)
    (h : program ex.input = Except.error msg) :
    scoreExample program ex = false
    ∧ ((pre ++ ex :: post).countP fun e => scoreExample program e)
        = (pre.countP fun e => scoreExample program e)
          + (post.countP fun e => scoreExample program e) := by
  have hs : scoreExample program ex = false := by
    unfold scoreExample
    rw [h]
  refine ⟨hs, ?_⟩
  rw [List.countP_append, List.countP_cons, hs]
  simp

/-- C8 witness: a three-example run where the middle example raises; the outer
two are still scored (both pass), tally 2. -/
theorem fault_isolation_witness :
    wRaiser [[9]] = Except.error "boom"
    ∧ (scoreExample wRaiser ⟨[[9]], [[2]]⟩ = false
      ∧ ((([⟨[[1]], [[1]]⟩] : List TrainExample)
            ++ (⟨[[9]], [[2]]⟩ : TrainExample) :: [⟨[[2]], [[2]]⟩]).countP
            fun e => scoreExample wRaiser e)
          = (([⟨[[1]], [[1]]⟩] : List TrainExample).countP fun e => scoreExample wRaiser e)
            + (([⟨[[2]], [[2]]⟩] : List TrainExample).countP
                fun e => scoreExample wRaiser e)) :=
  ⟨by rfl, fault_isolation wRaiser [⟨[[1]], [[1]]⟩] [⟨[[2]], [[2]]⟩]
    ⟨[[9]], [[2]]⟩ "boom" (by rfl)⟩

/-- C4 (failing input evaluated): a candidate whose entry point raises on every
example of a two-example task yields `(False, "Passed 0/2 train examples")` —
the plain tally, with no runtime-fault detail in the returned message and no
per-example failure surfaced, although zero examples could be scored. -/
theorem runtime_faults_yield_plain_tally :
    passes_training_examples (fun _ => Except.error "division by zero")
      [⟨[[0]], [[0]]⟩, ⟨[[1]], [[1]]⟩]
      = (false, "Passed 0/2 train examples") := by decide

/-- `dropWhile` is idempotent. -/
theorem dropWhile_dropWhile {α : Type} (p : α → Bool) (l : List α) :
    (l.dropWhile p).dropWhile p = l.dropWhile p := by
  induction l with
  | nil => rfl
  | cons c t ih =>
    cases hp : p c
    · simp [List.dropWhile_cons, hp]
    · simp [List.dropWhile_cons, hp, ih]

/-- The head of `dropWhile p l` fails `p`. -/
theorem dropWhile_head?_false {α : Type} (p : α → Bool) (l : List α) (c : α)
    (h : (l.dropWhile p).head? = some c) : p c = false := by
  induction l with
  | nil => simp at h
  | cons a t ih =>
    cases hp : p a
    · rw [List.dropWhile_cons, hp] at h
      simp only [Bool.false_eq_true, if_false, List.head?_cons,
        Option.some.injEq] at h
      subst h
      exact hp
    · rw [List.dropWhile_cons, hp] at h
      simp only [if_true] at h
      exact ih h

/-- A list whose head fails `p` is unchanged by `dropWhile p`. -/
theorem dropWhile_eq_self_of_head? {α : Type} (p : α → Bool) (l : List α)
    (h : ∀ c, l.head? = some c → p c = false) : l.dropWhile p = l := by
  cases l with
  | nil => rfl
  | cons a t =>
    have ha := h a rfl
    simp [List.dropWhile_cons, ha]

/-- Python's `str.strip()` is idempotent. -/
theorem pyStrip_idem (l : List Char) : pyStrip (pyStrip l) = pyStrip l := by
  unfold pyStrip dropTrailing
  have h1 : (((l.dropWhile pyIsSpace).reverse.dropWhile pyIsSpace).reverse).dropWhile pyIsSpace
      = ((l.dropWhile pyIsSpace).reverse.dropWhile pyIsSpace).reverse := by
    apply dropWhile_eq_self_of_head?
    intro c hc
    rw [← List.getLast?_eq_head?_reverse] at hc
    obtain ⟨w, hw⟩ := List.dropWhile_suffix (l := (l.dropWhile pyIsSpace).reverse) pyIsSpace
    have hr : ((l.dropWhile pyIsSpace).reverse).getLast? = some c := by
      rw [← hw, List.getLast?_append, hc]
      rfl
    rw [List.getLast?_reverse] at hr
    exact dropWhile_head?_false pyIsSpace l c hr
  rw [h1, List.reverse_reverse, dropWhile_dropWhile]

/-- If a pattern does not occur in `l`, no extension of it does. -/
theorem splitFirst_none_mono (p q : List Char) (hpq : p <+: q) :
    ∀ l, splitFirst p l = none → splitFirst q l = none := by
  intro l
  induction l with
  | nil =>
    intro h
    unfold splitFirst at h ⊢
    cases hq : q.isPrefixOf ([] : List Char)
    · simp [hq]
    · exfalso
      have hq' : q <+: ([] : List Char) := List.isPrefixOf_iff_prefix.mp hq
      have hqe : q = [] := List.prefix_nil.mp hq'
      subst hqe
      have hpe : p = [] := List.prefix_nil.mp hpq
      subst hpe
      simp at h
  | cons c tl ih =>
    intro h
    unfold splitFirst at h ⊢
    cases hq : q.isPrefixOf (c :: tl)
    · simp only [Bool.false_eq_true, if_false]
      cases hp : p.isPrefixOf (c :: tl)
      · rw [hp] at h
        simp only [Bool.false_eq_true, if_false] at h
        have hnone : splitFirst p tl = none := by
          cases hsp : splitFirst p tl
          · rfl
          · rw [hsp] at h
            simp at h
        rw [ih hnone]
        rfl
      · rw [hp] at h
        simp at h
    · exfalso
      have hq' : q <+: c :: tl := List.isPrefixOf_iff_prefix.mp hq
      have hp' : p <+: c :: tl := hpq.trans hq'
      have hpb : p.isPrefixOf (c :: tl) = true := List.isPrefixOf_iff_prefix.mpr hp'
      rw [hpb] at h
      simp at h

/-- The multiline scanner leaves a string with no `python`-prefixed line
unchanged, for any fuel. -/
theorem stripPyTagAux_of_noPyTag :
    ∀ (fuel : Nat) (b : Bool) (l : List Char), noPyTag b l = true →
      stripPyTagAux fuel b l = l := by
  intro fuel
  induction fuel with
  | zero =>
    intro b l _
    rfl
  | succ f ih =>
    intro b l h
    cases l with
    | nil => rfl
    | cons c tl =>
      unfold noPyTag at h
      simp only [Bool.and_eq_true, Bool.not_eq_true'] at h
      obtain ⟨h1, h2⟩ := h
      unfold stripPyTagAux
      rw [h1]
      simp only [Bool.false_eq_true, if_false]
      rw [ih (c == '\n') tl h2]

/-- The shared tail of `extractCodeL`: the conditional strip of lines 40-42
followed by the final `.strip()` of line 44 amounts to one `strip`. -/
theorem pyStrip_postProcess (code : List Char) :
    pyStrip (if !(containsSub code ("def p(g)".data))
              && !(containsSub code ("def p(g:)".data)) then
        pyStrip code
      else
        code)
    = pyStrip code := by
  cases hcond : (!(containsSub code ("def p(g)".data))
      && !(containsSub code ("def p(g:)".data)))
  · simp only [Bool.false_eq_true, if_false]
  · simp only [if_true]
    exact pyStrip_idem code

/-- With no `` ``` `` in the raw text, both fence searches fail and
`extract_code` returns the trimmed raw text verbatim. -/
theorem extract_code_no_fence (raw : String)
    (h : splitFirst ("```".data) raw.data = none) :
    extract_code raw = String.mk (pyStrip raw.data) := by
  have h3 : splitFirst ("```python".data) raw.data = none :=
    splitFirst_none_mono ("```".data) ("```python".data) (by decide) raw.data h
  unfold extract_code extractCodeL pythonBlockFirst genericBlockFirst
  rw [h3, h]
  simp only []
  rw [pyStrip_postProcess, pyStrip_idem]

/-- C6 counterexample: for the raw text `"```\nabc\npythonic = 1\n```"` the
first generic fenced block has no leading language tag, so by the claim the
result would be the trimmed content `"abc\npythonic = 1"` with the remaining
lines unchanged; the code instead also removes the `python` prefix of the
interior line `pythonic = 1`, returning `"abc\nic = 1"`. -/
theorem extract_code_strips_interior_python_lines :
    extract_code "```\nabc\npythonic = 1\n```" = "abc\nic = 1"
    ∧ extract_code "```\nabc\npythonic = 1\n```" ≠ "abc\npythonic = 1" := by
  constructor
  · decide
  · decide

/-- C6 amended: `extract_code` prefers (a) the first ```` ```python ````-tagged
block's content trimmed, else (b) the first generic block's content trimmed and
then rewritten by the multiline `^python\s*` deletion — which removes a
`python` prefix and its following whitespace at the start of *every* line
where one occurs, leaves every other line unchanged, and does not remove
language tags other than `python` — else (c) the trimmed raw text verbatim. -/
theorem extract_code_cases :
    (∀ raw : String, splitFirst ("```".data) raw.data = none →
        extract_code raw = String.mk (pyStrip raw.data))
    ∧ (∀ (raw : String) (content : List Char),
        pythonBlockFirst raw.data = some content →
        extract_code raw = String.mk (pyStrip content))
    ∧ (∀ (raw : String) (content : List Char),
        pythonBlockFirst raw.data = none →
        genericBlockFirst raw.data = some content →
        extract_code raw = String.mk (pyStrip (stripPyTags (pyStrip content))))
    ∧ (∀ l : List Char, noPyTag true l = true → stripPyTags l = l) := by
  refine ⟨?_, ?_, ?_, ?_⟩
  · intro raw h
    exact extract_code_no_fence raw h
  · intro raw content h
    unfold extract_code extractCodeL
    rw [h]
    simp only []
    rw [pyStrip_postProcess, pyStrip_idem]
  · intro raw content hpy hgen
    unfold extract_code extractCodeL
    rw [hpy, hgen]
    simp only []
    rw [pyStrip_postProcess]
  · intro l h
    exact stripPyTagAux_of_noPyTag l.length true l h

/-- C6 amended witness: the fallback case on plain text, case (b) on a
`js`-tagged block (whose tag is kept), and invariance of the scanner on text
with no `python`-prefixed line. -/
theorem extract_code_cases_witness :
    extract_code "  x = 1  " = "x = 1"
    ∧ extract_code "```js\ncode\n```" = "js\ncode"
    ∧ stripPyTags ("js\ncode".data) = "js\ncode".data :=
  ⟨(extract_code_cases.1 "  x = 1  " (by decide)).trans (by decide),
   (extract_code_cases.2.2.1 "```js\ncode\n```" ("js\ncode\n".data)
      (by decide) (by decide)).trans (by decide),
   extract_code_cases.2.2.2 ("js\ncode".data) (by decide)⟩

/-- The record of one loop iteration carries the prompt built from the stored
feedback (initial on attempt 0). -/
theorem iterAttempt_fst_prompt (env : LoopEnv) (attempt : Nat)
    (pc pe : Option String) :
    (iterAttempt env attempt pc pe).1.prompt =
      if attempt == 0 then
        build_prompt env.train_formatted env.test_formatted
      else
        build_prompt env.train_formatted env.test_formatted pc pe := by
  unfold iterAttempt
  cases env.gen attempt with
  | error e => rfl
  | ok raw =>
    dsimp only
    split
    · rfl
    · split <;> rfl

/-- The loop breaks without storing feedback exactly on an accepted attempt. -/
theorem iterAttempt_none_accepted (env : LoopEnv) (attempt : Nat)
    (pc pe : Option String) (a : AttemptRec)
    (h : iterAttempt env attempt pc pe = (a, none)) : isAcceptedRec a = true := by
  unfold iterAttempt at h
  cases hg : env.gen attempt with
  | error e =>
    rw [hg] at h
    simp at h
  | ok raw =>
    rw [hg] at h
    dsimp only at h
    split at h
    · simp at h
    · split at h
      next message heq =>
        injection h with h1 h2
        subst h1
        rfl
      next message heq =>
        injection h with h1 h2
        simp at h2

/-- A stored-feedback result comes from a non-accepted attempt. -/
theorem iterAttempt_some_not_accepted (env : LoopEnv) (attempt : Nat)
    (pc pe : Option String) (a : AttemptRec) (x : Option String × Option String)
    (h : iterAttempt env attempt pc pe = (a, some x)) : isAcceptedRec a = false := by
  unfold iterAttempt at h
  cases hg : env.gen attempt with
  | error e =>
    rw [hg] at h
    injection h with h1 h2
    subst h1
    rfl
  | ok raw =>
    rw [hg] at h
    dsimp only at h
    split at h
    · injection h with h1 h2
      subst h1
      rfl
    · split at h
      next message heq =>
        injection h with h1 h2
        simp at h2
      next message heq =>
        injection h with h1 h2
        subst h1
        rfl

/-- The attempt loop always records at least one attempt. -/
theorem runAttempts_ne_nil (env : LoopEnv) (retry : Bool) :
    ∀ (n attempt : Nat) (pc pe : Option String),
      runAttempts env retry n attempt pc pe ≠ [] := by
  intro n attempt pc pe
  cases n with
  | zero => simp [runAttempts]
  | succ m =>
    unfold runAttempts
    rcases h : iterAttempt env attempt pc pe with ⟨a, o⟩
    cases o with
    | none => simp
    | some p =>
      rcases p with ⟨pc', pe'⟩
      cases retry <;> simp

/-- The head of the loop's trace is the first iteration's record. -/
theorem runAttempts_head? (env : LoopEnv) (retry : Bool)
    (n attempt : Nat) (pc pe : Option String) :
    (runAttempts env retry n attempt pc pe).head?
      = some (iterAttempt env attempt pc pe).1 := by
  cases n with
  | zero => simp [runAttempts]
  | succ m =>
    unfold runAttempts
    rcases h : iterAttempt env attempt pc pe with ⟨a, o⟩
    cases o with
    | none => simp
    | some p =>
      rcases p with ⟨pc', pe'⟩
      cases retry <;> simp

/-- The trace never exceeds `remaining + 1` records. -/
theorem runAttempts_length_le (env : LoopEnv) (retry : Bool) :
    ∀ (n attempt : Nat) (pc pe : Option String),
      (runAttempts env retry n attempt pc pe).length ≤ n + 1 := by
  intro n
  induction n with
  | zero =>
    intro attempt pc pe
    simp [runAttempts]
  | succ m ih =>
    intro attempt pc pe
    unfold runAttempts
    rcases h : iterAttempt env attempt pc pe with ⟨a, o⟩
    cases o with
    | none => simp
    | some p =>
      rcases p with ⟨pc', pe'⟩
      cases retry with
      | false => simp
      | true =>
        simp only [if_true, List.length_cons]
        have := ih (attempt + 1) pc' pe'
        omega

/-- Every record before the last one in a trace is non-accepted: an accepted
verdict ends the loop at once. -/
theorem runAttempts_dropLast_not_accepted (env : LoopEnv) (retry : Bool) :
    ∀ (n attempt : Nat) (pc pe : Option String),
      ∀ a ∈ (runAttempts env retry n attempt pc pe).dropLast,
        isAcceptedRec a = false := by
  intro n
  induction n with
  | zero =>
    intro attempt pc pe a ha
    simp [runAttempts] at ha
  | succ m ih =>
    intro attempt pc pe a ha
    unfold runAttempts at ha
    rcases h : iterAttempt env attempt pc pe with ⟨b, o⟩
    rw [h] at ha
    cases o with
    | none => simp at ha
    | some p =>
      rcases p with ⟨pc', pe'⟩
      cases retry with
      | false => simp at ha
      | true =>
        simp only [if_true] at ha
        rw [List.dropLast_cons_of_ne_nil (runAttempts_ne_nil env true m (attempt + 1) pc' pe')]
          at ha
        rcases List.mem_cons.mp ha with hb | hb
        · subst hb
          exact iterAttempt_some_not_accepted env attempt pc pe a (pc', pe') h
        · exact ih (attempt + 1) pc' pe' a hb

/-- With retries enabled, a run in which no attempt is accepted uses all
`remaining + 1` attempts. -/
theorem runAttempts_no_accept_full (env : LoopEnv) :
    ∀ (n attempt : Nat) (pc pe : Option String),
      (∀ a ∈ runAttempts env true n attempt pc pe, isAcceptedRec a = false) →
      (runAttempts env true n attempt pc pe).length = n + 1 := by
  intro n
  induction n with
  | zero =>
    intro attempt pc pe _
    simp [runAttempts]
  | succ m ih =>
    intro attempt pc pe hall
    unfold runAttempts at hall ⊢
    rcases h : iterAttempt env attempt pc pe with ⟨b, o⟩
    rw [h] at hall
    cases o with
    | none =>
      exfalso
      have hacc := iterAttempt_none_accepted env attempt pc pe b h
      have := hall b (by simp)
      rw [this] at hacc
      exact Bool.false_ne_true hacc
    | some p =>
      rcases p with ⟨pc', pe'⟩
      simp only [if_true, List.length_cons] at hall ⊢
      have := ih (attempt + 1) pc' pe' (fun a ha => hall a (List.mem_cons_of_mem b ha))
      omega

/-- C2: with `retry_on_failure` enabled and `max_retries = r`, one task's
attempt loop records at most `r + 1` attempts (each record is exactly one
`generate` call), an accepted verdict can only be the last record (the loop
breaks at once, issuing no further generation call), and a run with no
accepted verdict uses exactly `r + 1` attempts. -/
theorem attempt_loop_bound (env : LoopEnv) (r : Nat) :
    (runAttempts env true r 0 none none).length ≤ r + 1
    ∧ (∀ a ∈ (runAttempts env true r 0 none none).dropLast, isAcceptedRec a = false)
    ∧ ((∀ a ∈ runAttempts env true r 0 none none, isAcceptedRec a = false) →
        (runAttempts env true r 0 none none).length = r + 1) :=
  ⟨runAttempts_length_le env true r 0 none none,
   fun a ha => runAttempts_dropLast_not_accepted env true r 0 none none a ha,
   runAttempts_no_accept_full env r 0 none none⟩

/-- C2 witness: with `max_retries = 1` and a validator that always fails, the
loop issues exactly 2 generation calls. -/
theorem attempt_loop_bound_witness :
    (runAttempts wEnvFail true 1 0 none none).length = 2 :=
  (attempt_loop_bound wEnvFail 1).2.2 (by decide)

/-- C7 counterexample: the generator answers with an empty fenced block, so
the extracted candidate is the empty string; the first attempt fails
validation (`Function p() not found`) and stores `previous_code = ""`, yet the
second attempt's prompt is the *initial* prompt (Python's
`if previous_code and error_message:` is false on the empty string), not the
refinement prompt. -/
theorem empty_prior_code_gets_initial_prompt :
    ((runAttempts wEnvEmptySrc true 1 0 none none).map fun a => a.verdict)
      = [AttemptVerdict.failedValidation "" "Function p() not found",
         AttemptVerdict.failedValidation "" "Function p() not found"]
    ∧ ((runAttempts wEnvEmptySrc true 1 0 none none).map fun a => a.prompt)
      = [initialPromptText "T" "E", initialPromptText "T" "E"]
    ∧ initialPromptText "T" "E"
        ≠ refinementPromptText "" "Function p() not found" "T" "E" := by
  have hx : extract_code "``````" = "" := by decide
  refine ⟨?_, ?_, ?_⟩
  · simp only [runAttempts, iterAttempt, wEnvEmptySrc, hx]
    simp
  · simp only [runAttempts, iterAttempt, wEnvEmptySrc, hx]
    simp [build_prompt, pyTruthy]
  · decide

/-- C7 amended: the refinement prompt — containing the stored prior source and
error rendering — is built exactly when both stored strings are present and
non-empty; a stored `None` or empty candidate yields the initial prompt again.
At the loop level, the attempt following a failed attempt is always prompted
with `build_prompt` applied to the feedback stored by that failure. -/
theorem refinement_prompt_iff_nonempty_feedback :
    (∀ (tr te c m : String), c ≠ "" → m ≠ "" →
        build_prompt tr te (some c) (some m) = refinementPromptText c m tr te)
    ∧ (∀ (tr te : String) (om : Option String),
        build_prompt tr te none om = initialPromptText tr te)
    ∧ (∀ (tr te : String) (om : Option String),
        build_prompt tr te (some "") om = initialPromptText tr te)
    ∧ (∀ (env : LoopEnv) (n attempt : Nat) (pc pe : Option String)
        (a : AttemptRec) (pc' pe' : Option String),
        iterAttempt env attempt pc pe = (a, some (pc', pe')) →
        (((runAttempts env true (n + 1) attempt pc pe).drop 1).head?).map
            (fun x => x.prompt)
          = some (build_prompt env.train_formatted env.test_formatted pc' pe')) := by
  refine ⟨?_, ?_, ?_, ?_⟩
  · intro tr te c m hc hm
    have hc' : (c == "") = false := by simpa using hc
    have hm' : (m == "") = false := by simpa using hm
    simp [build_prompt, pyTruthy, hc', hm']
  · intro tr te om
    simp [build_prompt, pyTruthy]
  · intro tr te om
    simp [build_prompt, pyTruthy]
  · intro env n attempt pc pe a pc' pe' h
    unfold runAttempts
    rw [h]
    simp only [if_true, List.drop_succ_cons, List.drop_zero]
    rw [runAttempts_head? env true n (attempt + 1) pc' pe']
    simp [iterAttempt_fst_prompt]

/-- C7 amended witness: after a first attempt failing validation with the
non-empty candidate `"x = 1"`, the second attempt's prompt is the refinement
prompt built from that candidate and its message. -/
theorem refinement_prompt_iff_nonempty_feedback_witness :
    build_prompt "T" "E" (some "x = 1") (some "Passed 0/1 train examples")
      = refinementPromptText "x = 1" "Passed 0/1 train examples" "T" "E"
    ∧ (((runAttempts wEnvFail true 1 0 none none).drop 1).head?).map
        (fun x => x.prompt)
      = some (build_prompt "T" "E" (some "x = 1")
          (some "Passed 0/1 train examples")) := by
  constructor
  · exact refinement_prompt_iff_nonempty_feedback.1 "T" "E" "x = 1"
      "Passed 0/1 train examples" (by decide) (by decide)
  · have hx : extract_code "x = 1" = "x = 1" := by decide
    have hit : iterAttempt wEnvFail 0 none none
        = (⟨build_prompt "T" "E",
            AttemptVerdict.failedValidation "x = 1" "Passed 0/1 train examples"⟩,
           some (some "x = 1", some "Passed 0/1 train examples")) := by
      simp [iterAttempt, wEnvFail, hx]
    exact refinement_prompt_iff_nonempty_feedback.2.2.2 wEnvFail 0 0 none none
      _ (some "x = 1") (some "Passed 0/1 train examples") hit

/-- C9: a task whose solution artifact already exists is skipped before any
generation: its trace is empty, the api-call counter is unchanged by
processing it, and the skipped counter increments. -/
theorem skip_zero_generation (retry : Bool) (r maxCalls api skipped : Nat)
    (t : TaskSpec) (rest : List TaskSpec)
    (hsolved : t.already_solved = true) (hbudget : api < maxCalls) :
    taskTrace t retry r = []
    ∧ runTasks retry r maxCalls (t :: rest) api skipped
        = runTasks retry r maxCalls rest api (skipped + 1) := by
  constructor
  · simp [taskTrace, hsolved]
  · have h1 : ¬ (maxCalls ≤ api) := by omega
    simp [runTasks, hsolved, h1]

/-- C9 witness: one already-solved task under a budget of 5. -/
theorem skip_zero_generation_witness :
    (⟨true, wEnvPass⟩ : TaskSpec).already_solved = true
    ∧ 0 < 5
    ∧ taskTrace ⟨true, wEnvPass⟩ true 2 = []
    ∧ runTasks true 2 5 [⟨true, wEnvPass⟩] 0 0 = runTasks true 2 5 [] 0 (0 + 1) :=
  ⟨rfl, by decide,
   (skip_zero_generation true 2 5 0 0 ⟨true, wEnvPass⟩ [] rfl (by decide)).1,
   (skip_zero_generation true 2 5 0 0 ⟨true, wEnvPass⟩ [] rfl (by decide)).2⟩

/-- A pattern whose first character occurs nowhere in `l` does not occur in
`l`. -/
theorem splitFirst_none_of_not_mem (c : Char) (p l : List Char)
    (h : ∀ a ∈ l, a ≠ c) : splitFirst (c :: p) l = none := by
  induction l with
  | nil => rfl
  | cons b tl ih =>
    unfold splitFirst
    have hb : b ≠ c := h b (List.mem_cons_self b tl)
    have hcb : (c == b) = false := by
      rw [beq_eq_false_iff_ne]
      exact Ne.symm hb
    rw [List.isPrefixOf_cons₂, hcb]
    simp only [Bool.false_and, Bool.false_eq_true, if_false]
    rw [ih (fun a ha => h a (List.mem_cons_of_mem b ha))]
    rfl

/-- `dropWhile` is the identity on a list with no satisfying element. -/
theorem dropWhile_eq_self_of_all {α : Type} (p : α → Bool) (l : List α)
    (h : ∀ a ∈ l, p a = false) : l.dropWhile p = l := by
  cases l with
  | nil => rfl
  | cons a t => simp [List.dropWhile_cons, h a (List.mem_cons_self a t)]

/-- `strip` is the identity on a list with no whitespace. -/
theorem pyStrip_of_no_space (l : List Char)
    (h : ∀ a ∈ l, pyIsSpace a = false) : pyStrip l = l := by
  unfold pyStrip dropTrailing
  rw [dropWhile_eq_self_of_all pyIsSpace l h]
  rw [dropWhile_eq_self_of_all pyIsSpace l.reverse
    (fun a ha => h a (List.mem_reverse.mp ha))]
  exact List.reverse_reverse l

/-- The extractor passes the over-long fence-free candidate through
unchanged. -/
theorem extract_code_long : extract_code wLongSrc = wLongSrc := by
  have hmem : ∀ a ∈ List.replicate 10001 'x', a ≠ Char.ofNat 96 := by
    intro a ha
    rw [List.mem_replicate] at ha
    rw [ha.2]
    decide
  have hsp : ∀ a ∈ List.replicate 10001 'x', pyIsSpace a = false := by
    intro a ha
    rw [List.mem_replicate] at ha
    rw [ha.2]
    decide
  have hg : splitFirst ("```".data) wLongSrc.data = none := by
    show splitFirst (Char.ofNat 96 :: "``".data) (List.replicate 10001 'x') = none
    exact splitFirst_none_of_not_mem (Char.ofNat 96) _ _ hmem
  rw [extract_code_no_fence wLongSrc hg]
  show String.mk (pyStrip (List.replicate 10001 'x')) = wLongSrc
  rw [pyStrip_of_no_space _ hsp]
  rfl

/-- C3 counterexample: the 10001-character candidate fails the length guard,
yet the pipeline accepts it on the first attempt — no length check is ever
applied, so it is not treated as a syntax error (nor rejected at all). -/
theorem long_source_accepted :
    validate_code_length wLongSrc = false
    ∧ runAttempts wEnvLong true 2 0 none none
        = [⟨build_prompt "T" "E",
            AttemptVerdict.accepted wLongSrc "Passed 1/1 train examples"⟩] := by
  constructor
  · have hlen : wLongSrc.length = 10001 := by
      show (List.replicate 10001 'x').length = 10001
      rw [List.length_replicate]
    unfold validate_code_length
    rw [hlen]
    rfl
  · have hx := extract_code_long
    simp only [runAttempts, iterAttempt, wEnvLong, hx]
    simp

/-- A record with a syntax-error verdict can only arise from the branch where
the `ast.parse` oracle rejected the extracted code. -/
theorem iterAttempt_syntaxError (env : LoopEnv) (attempt : Nat)
    (pc pe : Option String) (a : AttemptRec)
    (o : Option (Option String × Option String)) (c : String)
    (h : iterAttempt env attempt pc pe = (a, o))
    (hv : a.verdict = AttemptVerdict.syntaxError c) :
    env.isSyntaxValid c = false := by
  unfold iterAttempt at h
  cases hg : env.gen attempt with
  | error e =>
    rw [hg] at h
    injection h with h1 h2
    subst h1
    simp at hv
  | ok raw =>
    rw [hg] at h
    dsimp only at h
    split at h
    next hcond =>
      injection h with h1 h2
      subst h1
      simp only [AttemptVerdict.syntaxError.injEq] at hv
      rw [← hv]
      simpa using hcond
    next hcond =>
      split at h
      next message heq =>
        injection h with h1 h2
        subst h1
        simp at hv
      next message heq =>
        injection h with h1 h2
        subst h1
        simp at hv

/-- Across a whole trace, every syntax-error verdict traces back to the
syntax oracle; nothing else (in particular not the candidate's length) can
produce one. -/
theorem runAttempts_syntaxError_oracle (env : LoopEnv) (retry : Bool) :
    ∀ (n attempt : Nat) (pc pe : Option String),
      ∀ a ∈ runAttempts env retry n attempt pc pe, ∀ c : String,
        a.verdict = AttemptVerdict.syntaxError c → env.isSyntaxValid c = false := by
  intro n
  induction n with
  | zero =>
    intro attempt pc pe a ha c hv
    simp only [runAttempts, List.mem_singleton] at ha
    subst ha
    exact iterAttempt_syntaxError env attempt pc pe _ _ c rfl hv
  | succ m ih =>
    intro attempt pc pe a ha c hv
    unfold runAttempts at ha
    rcases h : iterAttempt env attempt pc pe with ⟨b, o⟩
    rw [h] at ha
    cases o with
    | none =>
      simp only [List.mem_singleton] at ha
      subst ha
      exact iterAttempt_syntaxError env attempt pc pe a none c h hv
    | some p =>
      rcases p with ⟨pc', pe'⟩
      cases retry with
      | false =>
        simp only [Bool.false_eq_true, if_false, List.mem_singleton] at ha
        subst ha
        exact iterAttempt_syntaxError env attempt pc pe a _ c h hv
      | true =>
        simp only [if_true] at ha
        rcases List.mem_cons.mp ha with hb | hb
        · subst hb
          exact iterAttempt_syntaxError env attempt pc pe a _ c h hv
        · exact ih (attempt + 1) pc' pe' a hb c hv

/-- C3 amended: `CodeValidator.validate_code_length` implements the length
predicate (`len(code) <= max_length`), but the pipeline never invokes it:
across the attempt loop a candidate is recorded as a syntax error only when
the `ast.parse` oracle rejects it — source length never influences the
verdict. -/
theorem length_guard_never_invoked :
    (∀ (code : String) (max_length : Nat),
        validate_code_length code max_length = true ↔ code.length ≤ max_length)
    ∧ (∀ (env : LoopEnv) (retry : Bool) (n attempt : Nat) (pc pe : Option String),
        ∀ a ∈ runAttempts env retry n attempt pc pe, ∀ c : String,
          a.verdict = AttemptVerdict.syntaxError c → env.isSyntaxValid c = false) := by
  constructor
  · intro code max_length
    simp [validate_code_length]
  · exact fun env retry n attempt pc pe =>
      runAttempts_syntaxError_oracle env retry n attempt pc pe

/-- C3 amended witness: the length predicate on a 5-character source with
bound 10, and a concrete trace whose first record is a syntax error produced
by a rejecting oracle. -/
theorem length_guard_never_invoked_witness :
    validate_code_length "x = 1" 10 = true
    ∧ wEnvBadSyn.isSyntaxValid "x = 1" = false := by
  constructor
  · exact (length_guard_never_invoked.1 "x = 1" 10).mpr (by decide)
  · have hx : extract_code "x = 1" = "x = 1" := by decide
    have htrace : runAttempts wEnvBadSyn true 1 0 none none
        = [⟨build_prompt "T" "E", AttemptVerdict.syntaxError "x = 1"⟩,
           ⟨build_prompt "T" "E" (some "x = 1")
              (some "Syntax error: Code has invalid Python syntax"),
            AttemptVerdict.syntaxError "x = 1"⟩] := by
      simp [runAttempts, iterAttempt, wEnvBadSyn, hx]
    exact length_guard_never_invoked.2 wEnvBadSyn true 1 0 none none
      ⟨build_prompt "T" "E", AttemptVerdict.syntaxError "x = 1"⟩
      (by rw [htrace]; exact List.mem_cons_self _ _) "x = 1" rfl

/-- C10 witness: the row-reversal program against an empty training list. -/
theorem empty_train_accepted_witness :
    passes_training_examples wRowRev [] = (true, "Passed 0/0 train examples") :=
  empty_train_accepted wRowRev
